import Mathlib

/-!
Verification of the multi-tenant data-isolation subsystem of the
SupplyChainPredictor repository.

The development shallowly embeds:

* the tenant context and the Prisma middleware of
  `src/backend/src/middleware/tenantIsolation.ts` (functions
  `setCurrentTenant`, `getCurrentTenant`, `clearCurrentTenant`,
  `tenantIsolationMiddleware`, `withTenant`);
* the uniqueness, foreign-key and cascade/restrict declarations of
  `src/backend/prisma/migrations/20251129220305_init/migration.sql`;
* the storage engine as the black-box transactional CRUD store the spec
  describes (filter-matching reads, filter-scoped updates and deletes,
  payload-inserting creates) — the engine itself is external to the
  repository, so its semantics are modelled from the spec's storage
  boundary description.

Machine state is passed explicitly; JavaScript `throw` is modelled with
`Except.error`; the middleware's `next` being invoked with the rewritten
parameters is modelled by `Except.ok` carrying the forwarded parameters.
-/

namespace SupplyChain

/-! ## Tenant context (tenantIsolation.ts lines 12-34)

The source keeps the active tenant in a module-level slot
`let currentTenantId: string | null = null`.  We model the slot's value as
`Option String` and the three accessors as explicit state transformers. -/

/-- The module-level tenant slot: `string | null`. -/
abbrev TenantState := Option String

/-- `setCurrentTenant(tenantId)` — replaces the slot's value. -/
def setCurrentTenant (tenantId : String) : TenantState → TenantState :=
  fun _ => some tenantId

/-- `getCurrentTenant()` — reads the slot. -/
def getCurrentTenant (s : TenantState) : Option String := s

/-- `clearCurrentTenant()` — resets the slot to `null`. -/
def clearCurrentTenant : TenantState → TenantState :=
  fun _ => none

/-- JavaScript truthiness of a `string | null` value: `null` and the empty
string are falsy, every other string is truthy.  The middleware's guard
`if (!tenantId ...)` and `withTenant`'s `if (previousTenant)` both test
truthiness of the slot value. -/
def truthyTenant : TenantState → Bool
  | none => false
  | some t => t != ""

/-! ## Prisma call parameters

`Prisma.Middleware` receives `params : { model?, action, args }` and a
continuation `next`.  Filters (`args.where`) and create payloads
(`args.data`) are objects; the middleware rewrites them with object
spreads.  We model a where-object as an optional tenant condition, an
optional id condition and a list of further field-equality conditions,
and a create payload as an optional tenant value plus field/value pairs;
the spread `{...obj, tenantId}` is then the update of the `tenantId`
component with all other components kept. -/

inductive PrismaAction
  | findUnique | findFirst | findFirstOrThrow | findUniqueOrThrow
  | findMany | count | aggregate | groupBy
  | create | createMany
  | update | updateMany | upsert
  | delete | deleteMany
  | executeRaw | queryRaw
deriving DecidableEq

/-- A `where` object: tenant condition, id condition, other field-equality
conditions. -/
structure WhereClause where
  tenantId : Option String
  id : Option String
  fields : List (String × String)
deriving DecidableEq

/-- The empty `where` object `{}` (also stands for spreading `undefined`). -/
def WhereClause.empty : WhereClause := ⟨none, none, []⟩

/-- A create payload (`args.data`): the tenant value, if the caller supplied
one, and the remaining field/value pairs. -/
structure CreateData where
  tenantId : Option String
  fields : List (String × String)
deriving DecidableEq

/-- `args.data` may be absent, a single object, or (for `createMany`) an
array of objects. -/
inductive DataArg
  | noData
  | one (d : CreateData)
  | many (ds : List CreateData)
deriving DecidableEq

structure PrismaArgs where
  whereArg : Option WhereClause
  data : DataArg
deriving DecidableEq

structure PrismaParams where
  model : Option String
  action : PrismaAction
  args : PrismaArgs
deriving DecidableEq

/-! ## The tenant-isolation middleware (tenantIsolation.ts lines 45-148) -/

/-- The error message thrown at tenantIsolation.ts lines 50-53. -/
def tenantRequiredMessage : String :=
  "Tenant ID required for database access. Use setCurrentTenant() to set the tenant context before database operations."

/-- The `tenantedModels` array (tenantIsolation.ts lines 58-70), verbatim. -/
def tenantedModels : List String :=
  ["supplier", "product", "location", "shipmentRoute", "riskEvent",
   "inventory", "user", "riskEventSupplier", "riskEventProduct",
   "riskEventLocation", "riskEventRoute"]

/-- JavaScript `String.prototype.toLowerCase`, character-wise; for the
ASCII model names at play it lowercases each character. -/
def jsToLowerCase (s : String) : String := ⟨s.data.map Char.toLower⟩

/-- Lines 72-73: `const modelName = params.model?.toLowerCase();
const isTenantedModel = modelName && tenantedModels.includes(modelName);` -/
def isTenantedModel (model : Option String) : Bool :=
  match model.map jsToLowerCase with
  | some m => tenantedModels.contains m
  | none => false

/-- `params.args.where = { ...params.args.where, tenantId }` — spreading a
possibly-undefined where object and overriding its `tenantId` key. -/
def mergeWhereTenant (w : Option WhereClause) (tenantId : Option String) : WhereClause :=
  { w.getD WhereClause.empty with tenantId := tenantId }

/-- `{ ...record, tenantId }` on a single payload object. -/
def stampCreateData (d : CreateData) (tenantId : Option String) : CreateData :=
  { d with tenantId := tenantId }

/-- `params.args.data = { ...params.args.data, tenantId }` on a
non-array payload (spreading `undefined` yields `{ tenantId }`). -/
def stampObjectData (d : DataArg) (tenantId : Option String) : DataArg :=
  match d with
  | .one r => .one (stampCreateData r tenantId)
  | .noData => .one ⟨tenantId, []⟩
  | .many ds => .many ds

/-- `tenantIsolationMiddleware` (tenantIsolation.ts lines 45-148).

`Except.error msg` models the middleware throwing before `next` is
reached; `Except.ok p` models `next` being invoked with the (possibly
rewritten) parameters `p`. -/
def tenantIsolationMiddleware (currentTenantId : TenantState)
    (params : PrismaParams) : Except String PrismaParams :=
  let tenantId := getCurrentTenant currentTenantId
  -- lines 49-54: `if (!tenantId && params.action !== 'executeRaw' && params.action !== 'queryRaw')`
  if truthyTenant tenantId = false ∧ params.action ≠ .executeRaw ∧
      params.action ≠ .queryRaw then
    Except.error tenantRequiredMessage
  else
    -- lines 72-78
    if isTenantedModel params.model = false then
      Except.ok params
    else
      -- lines 81-147: the switch on params.action, then `next(params)`
      match params.action with
      | .findUnique | .findFirst | .findFirstOrThrow | .findUniqueOrThrow
      | .findMany | .count | .aggregate | .groupBy =>
          Except.ok { params with
            args := { params.args with
              whereArg := some (mergeWhereTenant params.args.whereArg tenantId) } }
      | .create =>
          Except.ok { params with
            args := { params.args with
              data := stampObjectData params.args.data tenantId } }
      | .createMany =>
          Except.ok { params with
            args := { params.args with
              data := match params.args.data with
                | .many ds => .many (ds.map (fun r => stampCreateData r tenantId))
                | d => stampObjectData d tenantId } }
      | .update | .updateMany | .upsert =>
          Except.ok { params with
            args := { params.args with
              whereArg := some (mergeWhereTenant params.args.whereArg tenantId) } }
      | .delete | .deleteMany =>
          Except.ok { params with
            args := { params.args with
              whereArg := some (mergeWhereTenant params.args.whereArg tenantId) } }
      | .executeRaw | .queryRaw =>
          Except.ok params

/-! ## `withTenant` (tenantIsolation.ts lines 158-173)

`withTenant(tenantId, operation)` saves the previous slot value, sets the
slot, runs the operation, and in a `finally` block restores the previous
value when it is truthy and clears the slot otherwise.  The operation is
modelled as a state transformer that may itself read and write the tenant
slot and that returns either a value or a thrown error; the `finally`
restore runs on both exits. -/

def withTenant {E A : Type} (tenantId : String)
    (operation : TenantState → TenantState × Except E A)
    (s0 : TenantState) : TenantState × Except E A :=
  let previousTenant := getCurrentTenant s0
  let s1 := setCurrentTenant tenantId s0
  let res := operation s1
  -- the `finally` block, lines 166-172
  let s3 :=
    if truthyTenant previousTenant then
      match previousTenant with
      | some p => setCurrentTenant p res.1
      | none => clearCurrentTenant res.1
    else
      clearCurrentTenant res.1
  (s3, res.2)

/-! ## The storage engine

The spec's §6 storage boundary: a transactional store keyed by entity
type, accepting a filter for reads/updates/deletes and a payload for
creates, and returning matched/created records or a typed failure.
Modelled from the spec: the engine below implements exactly that
black-box contract (the actual engine, PostgreSQL behind Prisma, is not
part of the repository).  Rows carry the columns the claims mention: the
primary key `id`, the `tenant_id` column (NOT NULL in every tenanted
table of migration.sql), and the remaining columns as field/value
pairs. -/

/-- A stored record. -/
structure Row where
  id : String
  tenantId : String
  fields : List (String × String)
deriving DecidableEq

/-- The store: rows tagged with the model (table) they belong to. -/
abbrev Database := List (String × Row)

/-- Typed storage failures (spec §7 taxonomy). -/
inductive OpError
  | precondition (msg : String)
  | constraintViolation (name : String)
  | notFound
deriving DecidableEq

/-- A row satisfies a where-object when every present condition holds as
an equality. -/
def rowMatches (w : WhereClause) (r : Row) : Bool :=
  (match w.tenantId with | none => true | some t => r.tenantId == t) &&
  (match w.id with | none => true | some i => r.id == i) &&
  w.fields.all (fun kv => r.fields.lookup kv.1 == some kv.2)

def rowMatchesOpt (w : Option WhereClause) (r : Row) : Bool :=
  match w with
  | none => true
  | some w => rowMatches w r

/-- Read: all rows of the model matching the filter. -/
def engineFindMany (db : Database) (model : String) (w : Option WhereClause) :
    List Row :=
  (db.filter (fun e => e.1 == model && rowMatchesOpt w e.2)).map Prod.snd

/-- Overwrite or append one field. -/
def setField (fs : List (String × String)) (kv : String × String) :
    List (String × String) :=
  if fs.any (fun p => p.1 == kv.1) then
    fs.map (fun p => if p.1 == kv.1 then kv else p)
  else fs ++ [kv]

/-- Apply an update payload to a row's non-key columns. -/
def applyUpdate (r : Row) (upd : List (String × String)) : Row :=
  { r with fields := upd.foldl setField r.fields }

/-- Update every row of the model matching the filter; also report how
many rows matched. -/
def engineUpdateMany (db : Database) (model : String) (w : Option WhereClause)
    (upd : List (String × String)) : Database × Nat :=
  (db.map (fun e =>
      if e.1 == model && rowMatchesOpt w e.2 then (e.1, applyUpdate e.2 upd)
      else e),
   (db.filter (fun e => e.1 == model && rowMatchesOpt w e.2)).length)

/-- Delete every row of the model matching the filter. -/
def engineDeleteMany (db : Database) (model : String) (w : Option WhereClause) :
    Database :=
  db.filter (fun e => !(e.1 == model && rowMatchesOpt w e.2))

/-- Insert a payload as a new row.  The engine enforces the NOT NULL
`tenant_id` column and the `PRIMARY KEY ("id")` constraint every tenanted
table declares in migration.sql. -/
def engineCreate (db : Database) (model : String) (d : CreateData)
    (newId : String) : Except OpError (Database × Row) :=
  match d.tenantId with
  | none => Except.error (.constraintViolation "tenant_id NOT NULL")
  | some t =>
      if db.any (fun e => e.1 == model && e.2.id == newId) then
        Except.error (.constraintViolation "PRIMARY KEY id")
      else
        let r : Row := ⟨newId, t, d.fields⟩
        Except.ok (db ++ [(model, r)], r)

/-! ## Client operations: middleware composed with the engine

Every entity-service call goes through `prisma.$use(tenantIsolationMiddleware)`
(database.ts / tests/integration/setup.ts) and then reaches the engine
with the forwarded parameters.  Each `run…` function below builds the
`PrismaParams` a service call produces, runs the middleware on them, and
applies the engine to what the middleware forwarded. -/

/-- A service `create` (e.g. `prisma.supplier.create({ data })`), with the
engine assigning the fresh id `newId`. -/
def runCreate (tenant : TenantState) (db : Database) (model : String)
    (d : CreateData) (newId : String) : Except OpError (Database × Row) :=
  match tenantIsolationMiddleware tenant ⟨some model, .create, ⟨none, .one d⟩⟩ with
  | .error e => .error (.precondition e)
  | .ok p =>
      match p.args.data with
      | .one d2 => engineCreate db model d2 newId
      | .many _ => .error (.precondition "array payload on create")
      | .noData => .error (.precondition "missing payload on create")

/-- A service `findMany({ where })`. -/
def runFindMany (tenant : TenantState) (db : Database) (model : String)
    (w : Option WhereClause) : Except OpError (List Row) :=
  match tenantIsolationMiddleware tenant ⟨some model, .findMany, ⟨w, .noData⟩⟩ with
  | .error e => .error (.precondition e)
  | .ok p => .ok (engineFindMany db model p.args.whereArg)

/-- A service `findUnique({ where })` — the first matching row, if any. -/
def runFindUnique (tenant : TenantState) (db : Database) (model : String)
    (w : Option WhereClause) : Except OpError (Option Row) :=
  match tenantIsolationMiddleware tenant ⟨some model, .findUnique, ⟨w, .noData⟩⟩ with
  | .error e => .error (.precondition e)
  | .ok p => .ok (engineFindMany db model p.args.whereArg).head?

/-- A service `count({ where })`. -/
def runCount (tenant : TenantState) (db : Database) (model : String)
    (w : Option WhereClause) : Except OpError Nat :=
  match tenantIsolationMiddleware tenant ⟨some model, .count, ⟨w, .noData⟩⟩ with
  | .error e => .error (.precondition e)
  | .ok p => .ok (engineFindMany db model p.args.whereArg).length

/-- A service `aggregate({ where })` — modelled as the multiset of rows
the aggregation ranges over. -/
def runAggregate (tenant : TenantState) (db : Database) (model : String)
    (w : Option WhereClause) : Except OpError (List Row) :=
  match tenantIsolationMiddleware tenant ⟨some model, .aggregate, ⟨w, .noData⟩⟩ with
  | .error e => .error (.precondition e)
  | .ok p => .ok (engineFindMany db model p.args.whereArg)

/-- A service `update({ where, data })` — Prisma's unique update: fails
with not-found when the forwarded filter matches no row. -/
def runUpdate (tenant : TenantState) (db : Database) (model : String)
    (w : Option WhereClause) (upd : List (String × String)) :
    Except OpError (Database × Row) :=
  match tenantIsolationMiddleware tenant ⟨some model, .update, ⟨w, .noData⟩⟩ with
  | .error e => .error (.precondition e)
  | .ok p =>
      match engineFindMany db model p.args.whereArg with
      | [] => .error .notFound
      | r :: _ => .ok ((engineUpdateMany db model p.args.whereArg upd).1,
                       applyUpdate r upd)

/-- A service `updateMany({ where, data })` — returns the new store and
the matched-row count. -/
def runUpdateMany (tenant : TenantState) (db : Database) (model : String)
    (w : Option WhereClause) (upd : List (String × String)) :
    Except OpError (Database × Nat) :=
  match tenantIsolationMiddleware tenant ⟨some model, .updateMany, ⟨w, .noData⟩⟩ with
  | .error e => .error (.precondition e)
  | .ok p => .ok (engineUpdateMany db model p.args.whereArg upd)

/-- A service `deleteMany({ where })`. -/
def runDeleteMany (tenant : TenantState) (db : Database) (model : String)
    (w : Option WhereClause) : Except OpError Database :=
  match tenantIsolationMiddleware tenant ⟨some model, .deleteMany, ⟨w, .noData⟩⟩ with
  | .error e => .error (.precondition e)
  | .ok p => .ok (engineDeleteMany db model p.args.whereArg)

/-- The tenant-scoped entity set of the spec (§4.2, §3): the seven primary
entities and the four RiskEvent junctions, named as Prisma names models
(`params.model` carries the schema model name). -/
def specTenantScopedModels : List String :=
  ["Supplier", "Product", "Location", "ShipmentRoute", "RiskEvent",
   "Inventory", "User", "RiskEventSupplier", "RiskEventProduct",
   "RiskEventLocation", "RiskEventRoute"]

/-! ## Relational constraints of migration.sql

The tables below carry the columns that appear in a uniqueness or
foreign-key declaration of
`src/backend/prisma/migrations/20251129220305_init/migration.sql`;
insert operations enforce the table's UNIQUE indexes and foreign keys,
and delete operations implement the declared ON DELETE actions.  A
failed statement leaves the database untouched (SQL statement
atomicity). -/

structure SupplierRow where
  id : String
  tenantId : String
  code : String
deriving DecidableEq

structure ProductRow where
  id : String
  tenantId : String
  sku : String
  supplierId : String
deriving DecidableEq

structure LocationRow where
  id : String
  tenantId : String
  code : String
deriving DecidableEq

structure RouteRow where
  id : String
  tenantId : String
  originLocationId : String
  destinationLocationId : String
  transportMode : String
deriving DecidableEq

structure RiskEventRow where
  id : String
  tenantId : String
deriving DecidableEq

structure InventoryRow where
  id : String
  tenantId : String
  productId : String
  locationId : String
deriving DecidableEq

structure UserRow where
  id : String
  tenantId : String
  email : String
deriving DecidableEq

/-- A RiskEvent junction row: `otherId` is the supplier / product /
location / route side of the pair. -/
structure JunctionRow where
  id : String
  tenantId : String
  riskEventId : String
  otherId : String
deriving DecidableEq

structure Schema where
  suppliers : List SupplierRow
  products : List ProductRow
  locations : List LocationRow
  routes : List RouteRow
  riskEvents : List RiskEventRow
  inventory : List InventoryRow
  users : List UserRow
  riskEventSuppliers : List JunctionRow
  riskEventProducts : List JunctionRow
  riskEventLocations : List JunctionRow
  riskEventRoutes : List JunctionRow
deriving DecidableEq

def Schema.empty : Schema := ⟨[], [], [], [], [], [], [], [], [], [], []⟩

/-- Insert a Supplier.  `CREATE UNIQUE INDEX "suppliers_code_key" ON
"suppliers"("code")` (migration.sql line 193): the index has no tenant
column, so the duplicate check ranges over every tenant's rows. -/
def insertSupplier (s : Schema) (r : SupplierRow) : Except OpError Schema :=
  if s.suppliers.any (fun x => x.code == r.code) then
    Except.error (.constraintViolation "suppliers_code_key")
  else
    Except.ok { s with suppliers := s.suppliers ++ [r] }

/-- Insert a Product.  `"products_sku_key" ON "products"("sku")` (line
205, global) and `"products_supplier_id_fkey" ... REFERENCES
"suppliers"("id")` (line 313). -/
def insertProduct (s : Schema) (r : ProductRow) : Except OpError Schema :=
  if s.products.any (fun x => x.sku == r.sku) then
    Except.error (.constraintViolation "products_sku_key")
  else if !(s.suppliers.any (fun x => x.id == r.supplierId)) then
    Except.error (.constraintViolation "products_supplier_id_fkey")
  else
    Except.ok { s with products := s.products ++ [r] }

/-- Insert a Location.  `"locations_code_key" ON "locations"("code")`
(line 217, global). -/
def insertLocation (s : Schema) (r : LocationRow) : Except OpError Schema :=
  if s.locations.any (fun x => x.code == r.code) then
    Except.error (.constraintViolation "locations_code_key")
  else
    Except.ok { s with locations := s.locations ++ [r] }

/-- Insert a ShipmentRoute.  The unique index on `("tenant_id",
"origin_location_id", "destination_location_id", "transport_mode")`
(line 244) and the two location foreign keys (lines 316, 319).  No
declaration in the table (migration.sql lines 83-96) constrains
`origin_location_id` to differ from `destination_location_id`. -/
def insertRoute (s : Schema) (r : RouteRow) : Except OpError Schema :=
  if s.routes.any (fun x =>
      x.tenantId == r.tenantId && x.originLocationId == r.originLocationId &&
      x.destinationLocationId == r.destinationLocationId &&
      x.transportMode == r.transportMode) then
    Except.error (.constraintViolation "shipment_routes_tenant_id_origin_location_id_destination_lo_key")
  else if !(s.locations.any (fun x => x.id == r.originLocationId)) then
    Except.error (.constraintViolation "shipment_routes_origin_location_id_fkey")
  else if !(s.locations.any (fun x => x.id == r.destinationLocationId)) then
    Except.error (.constraintViolation "shipment_routes_destination_location_id_fkey")
  else
    Except.ok { s with routes := s.routes ++ [r] }

/-- Insert an Inventory row.  The unique index on `("tenant_id",
"product_id", "location_id")` (line 274) and the product/location
foreign keys (lines 322, 325). -/
def insertInventory (s : Schema) (r : InventoryRow) : Except OpError Schema :=
  if s.inventory.any (fun x =>
      x.tenantId == r.tenantId && x.productId == r.productId &&
      x.locationId == r.locationId) then
    Except.error (.constraintViolation "inventory_tenant_id_product_id_location_id_key")
  else if !(s.products.any (fun x => x.id == r.productId)) then
    Except.error (.constraintViolation "inventory_product_id_fkey")
  else if !(s.locations.any (fun x => x.id == r.locationId)) then
    Except.error (.constraintViolation "inventory_location_id_fkey")
  else
    Except.ok { s with inventory := s.inventory ++ [r] }

/-- Insert a User.  `"users_email_key" ON "users"("email")` (line 277,
global). -/
def insertUser (s : Schema) (r : UserRow) : Except OpError Schema :=
  if s.users.any (fun x => x.email == r.email) then
    Except.error (.constraintViolation "users_email_key")
  else
    Except.ok { s with users := s.users ++ [r] }

/-- Delete a Product.  `inventory.product_id ... ON DELETE CASCADE` (line
322) and `risk_event_products.product_id ... ON DELETE CASCADE` (line
337): dependents are removed with the product.  No table references
products with RESTRICT. -/
def deleteProduct (s : Schema) (pid : String) : Schema :=
  { s with
    products := s.products.filter (fun p => p.id != pid),
    inventory := s.inventory.filter (fun i => i.productId != pid),
    riskEventProducts := s.riskEventProducts.filter (fun j => j.otherId != pid) }

/-- Delete a RiskEvent.  All four junction tables reference
`risk_events.id` with ON DELETE CASCADE (lines 328, 334, 340, 346). -/
def deleteRiskEvent (s : Schema) (eid : String) : Schema :=
  { s with
    riskEvents := s.riskEvents.filter (fun e => e.id != eid),
    riskEventSuppliers := s.riskEventSuppliers.filter (fun j => j.riskEventId != eid),
    riskEventProducts := s.riskEventProducts.filter (fun j => j.riskEventId != eid),
    riskEventLocations := s.riskEventLocations.filter (fun j => j.riskEventId != eid),
    riskEventRoutes := s.riskEventRoutes.filter (fun j => j.riskEventId != eid) }

/-- Delete a Supplier.  `products.supplier_id ... ON DELETE RESTRICT`
(line 313): the delete is rejected while a product references the
supplier; otherwise the supplier is removed together with its CASCADE
junction rows (line 331). -/
def deleteSupplier (s : Schema) (sid : String) : Except OpError Schema :=
  if s.products.any (fun p => p.supplierId == sid) then
    Except.error (.constraintViolation "products_supplier_id_fkey")
  else
    Except.ok { s with
      suppliers := s.suppliers.filter (fun x => x.id != sid),
      riskEventSuppliers := s.riskEventSuppliers.filter (fun j => j.otherId != sid) }

/-- A failed SQL statement modifies nothing: the state after attempting
`deleteSupplier` is the new state on success and the old state on
failure. -/
def applyDeleteSupplier (s : Schema) (sid : String) : Schema :=
  match deleteSupplier s sid with
  | .ok s2 => s2
  | .error _ => s

/-! ## The route-creation validation schema

Modelled from the spec: the Zod validation schema for ShipmentRoute
creation lives in `packages/shared/src/validators/schemas.ts`, which the
repository exports (`packages/shared/src/index.ts`) but whose source is
missing; per the spec's §6 validation boundary, §3's ShipmentRoute
invariant `origin ≠ destination`, and the repository's own
data-model.md ("originLocationId and destinationLocationId must be
different") and quickstart.md (a `.refine` rejecting equal endpoints,
with a positive integer transit time), the schema accepts a payload only
when the transit time is at least 1 and the endpoints differ. -/
def shipmentRouteCreateSchemaAccepts (originLocationId destinationLocationId : String)
    (transitTimeDays : Nat) : Bool :=
  decide (1 ≤ transitTimeDays) && (originLocationId != destinationLocationId)

deriving instance DecidableEq for Except

/-! ## Theorems -/

/-- C2.  Precondition enforcement: for every operation kind other than the
two raw kinds, attempted on a tenant-scoped model while no active tenant
is set, the middleware fails with the tenant-required error; `Except.error`
models the throw at tenantIsolation.ts lines 50-53, which happens before
`next` is reached, so the operation is never forwarded to storage. -/
theorem c2_tenant_precondition (p : PrismaParams) (m : String)
    (hm : p.model = some m) (hs : m ∈ specTenantScopedModels)
    (h1 : p.action ≠ .executeRaw) (h2 : p.action ≠ .queryRaw) :
    tenantIsolationMiddleware none p = Except.error tenantRequiredMessage := by
  simp [tenantIsolationMiddleware, getCurrentTenant, truthyTenant, h1, h2]

/-- C2 witness: a concrete findMany on the tenant-scoped Supplier model
with no active tenant fails with the tenant-required error. -/
theorem c2_tenant_precondition_witness :
    tenantIsolationMiddleware none ⟨some "Supplier", .findMany, ⟨none, .noData⟩⟩ =
      Except.error tenantRequiredMessage :=
  c2_tenant_precondition _ "Supplier" rfl (by decide) (by decide) (by decide)

/-- C5 counterexample.  The claim says an operation on an entity type
outside the tenant-scoped set succeeds identically whether or not a
tenant is set.  At the concrete input below (a findMany on a model that
is not tenant-scoped), the middleware throws the tenant-required error
when no tenant is set, yet forwards the call unmodified when a tenant is
set — the precondition check at tenantIsolation.ts lines 49-54 runs
before the model is examined. -/
theorem c5_counterexample :
    tenantIsolationMiddleware none ⟨some "AuditLog", .findMany, ⟨none, .noData⟩⟩ =
      Except.error tenantRequiredMessage ∧
    tenantIsolationMiddleware (some "ta") ⟨some "AuditLog", .findMany, ⟨none, .noData⟩⟩ =
      Except.ok ⟨some "AuditLog", .findMany, ⟨none, .noData⟩⟩ :=
  ⟨by decide, by decide⟩

/-- C5 amended.  Raw queries (executeRaw, queryRaw) pass through
unmodified with no active-tenant precondition; operations on models the
middleware does not treat as tenant-scoped are forwarded with their
arguments unmodified when a tenant is set, but the active-tenant
precondition still applies to every non-raw operation regardless of
model. -/
theorem c5_passthrough_amended :
    (∀ (tenant : TenantState) (p : PrismaParams),
       p.action = .executeRaw ∨ p.action = .queryRaw →
       tenantIsolationMiddleware tenant p = Except.ok p) ∧
    (∀ (t : String) (p : PrismaParams), t ≠ "" →
       isTenantedModel p.model = false →
       tenantIsolationMiddleware (some t) p = Except.ok p) := by
  constructor
  · intro tenant p h
    have hg : ¬(truthyTenant (getCurrentTenant tenant) = false ∧
        p.action ≠ .executeRaw ∧ p.action ≠ .queryRaw) := by
      intro hc
      rcases h with h | h
      · exact hc.2.1 h
      · exact hc.2.2 h
    simp only [tenantIsolationMiddleware]
    rw [if_neg hg]
    by_cases hm : isTenantedModel p.model = false
    · rw [if_pos hm]
    · rw [if_neg hm]
      rcases h with h | h <;> rw [h]
  · intro t p ht hm
    have hg : ¬(truthyTenant (getCurrentTenant (some t)) = false ∧
        p.action ≠ .executeRaw ∧ p.action ≠ .queryRaw) := by
      intro hc
      have hb : (t != "") = false := hc.1
      have hb2 : t = "" := by simpa using hb
      exact ht hb2
    simp only [tenantIsolationMiddleware]
    rw [if_neg hg, if_pos hm]

/-- C5 amended witness: a raw query with no tenant set passes through
unmodified, and a findMany on a non-tenant-scoped model with a tenant
set passes through unmodified. -/
theorem c5_passthrough_amended_witness :
    tenantIsolationMiddleware none ⟨none, .executeRaw, ⟨none, .noData⟩⟩ =
      Except.ok ⟨none, .executeRaw, ⟨none, .noData⟩⟩ ∧
    tenantIsolationMiddleware (some "ta") ⟨some "AuditLog", .findMany, ⟨none, .noData⟩⟩ =
      Except.ok ⟨some "AuditLog", .findMany, ⟨none, .noData⟩⟩ :=
  ⟨c5_passthrough_amended.1 none _ (Or.inl rfl),
   c5_passthrough_amended.2 "ta" _ (by decide) (by decide)⟩

/-- C8 counterexample.  The claim says that after `withTenant(T, fn)` the
tenant context equals its value from immediately before the call, for
every prior tenant-context state.  With prior state `some ""` (an
empty-string tenant set by `setCurrentTenant("")`), the `finally` block's
truthiness test `if (previousTenant)` treats the saved value as unset and
clears the context to `null` instead of restoring `""`. -/
theorem c8_counterexample :
    (withTenant "t1" (fun s => (s, (Except.ok 0 : Except Unit Nat))) (some "")).1 = none ∧
    (none : TenantState) ≠ some "" := by
  exact ⟨rfl, by decide⟩

/-- C8 amended.  For every tenant id T, every operation, and every prior
tenant-context state other than an empty-string tenant, after
`withTenant(T, fn)` returns or throws the context equals its prior
value (a prior empty-string tenant is instead cleared to unset, which the
middleware treats identically); the operation itself runs on a context
whose active tenant is T, and its result — normal or thrown — is
propagated unchanged. -/
theorem c8_with_tenant_amended {E A : Type} (t : String)
    (op : TenantState → TenantState × Except E A) (s0 : TenantState)
    (h : s0 ≠ some "") :
    (withTenant t op s0).1 = s0 ∧
    (withTenant t op s0).2 = (op (setCurrentTenant t s0)).2 := by
  cases s0 with
  | none =>
      simp [withTenant, truthyTenant, getCurrentTenant, setCurrentTenant,
        clearCurrentTenant]
  | some p =>
      have hp : p ≠ "" := by
        intro hc
        exact h (by rw [hc])
      have hb : (p != "") = true := by simpa using hp
      simp [withTenant, truthyTenant, getCurrentTenant, setCurrentTenant,
        clearCurrentTenant, hb]

/-- C8 amended witness: with prior tenant `"prev"` and an operation that
throws after clobbering the context, the context is restored to `"prev"`
and the thrown error is propagated. -/
theorem c8_with_tenant_amended_witness :
    (withTenant "t1" (fun _ => ((none : TenantState), (Except.error () : Except Unit Nat)))
       (some "prev")).1 = some "prev" ∧
    (withTenant "t1" (fun _ => ((none : TenantState), (Except.error () : Except Unit Nat)))
       (some "prev")).2 =
      ((fun _ => ((none : TenantState), (Except.error () : Except Unit Nat)))
         (setCurrentTenant "t1" (some "prev"))).2 :=
  c8_with_tenant_amended "t1" _ (some "prev") (by decide)

/-- C9 counterexample.  A ShipmentRoute create whose origin and
destination are the same location is accepted and stored by this
subsystem: the middleware forwards the payload with the endpoint fields
untouched, and no declaration of the shipment_routes table
(migration.sql lines 83-96: no CHECK constraint; the unique index and
the two location foreign keys are satisfied) rejects the row, so the
stored row has origin_location_id equal to destination_location_id. -/
theorem c9_counterexample :
    tenantIsolationMiddleware (some "ta")
      ⟨some "ShipmentRoute", .create,
        ⟨none, .one ⟨some "ta",
          [("originLocationId", "l1"), ("destinationLocationId", "l1"),
           ("transportMode", "TRUCK")]⟩⟩⟩ =
      Except.ok
        ⟨some "ShipmentRoute", .create,
          ⟨none, .one ⟨some "ta",
            [("originLocationId", "l1"), ("destinationLocationId", "l1"),
             ("transportMode", "TRUCK")]⟩⟩⟩ ∧
    insertRoute { Schema.empty with locations := [⟨"l1", "ta", "LOC-1"⟩] }
        ⟨"r1", "ta", "l1", "l1", "TRUCK"⟩ =
      Except.ok { Schema.empty with
        locations := [⟨"l1", "ta", "LOC-1"⟩],
        routes := [⟨"r1", "ta", "l1", "l1", "TRUCK"⟩] } := by
  exact ⟨by decide, by decide⟩

/-- C9 amended.  The origin-differs-from-destination rule is enforced by
the external validation boundary, not by the create path of the
service/storage subsystem: every ShipmentRoute payload accepted by the
route-creation validation schema has an origin location different from
its destination location, while a create that bypasses validation stores
a row with equal endpoints. -/
theorem c9_route_endpoints_amended (o d : String) (tt : Nat)
    (h : shipmentRouteCreateSchemaAccepts o d tt = true) : o ≠ d := by
  have h2 := h
  simp only [shipmentRouteCreateSchemaAccepts, Bool.and_eq_true, decide_eq_true_eq,
    bne_iff_ne, ne_eq] at h2
  exact h2.2

/-- C9 amended witness: a concrete payload with distinct endpoints passes
the validation schema, and the theorem yields their distinctness. -/
theorem c9_route_endpoints_amended_witness :
    shipmentRouteCreateSchemaAccepts "l1" "l2" 3 = true ∧ ("l1" : String) ≠ "l2" :=
  ⟨by decide, c9_route_endpoints_amended "l1" "l2" 3 (by decide)⟩

/-- C1.  Tenant isolation fails on part of the tenant-scoped set.  For
the Supplier model the middleware scopes every operation to the active
tenant: a record created under tenant "ta" is invisible to reads,
counts, aggregates, updates and deletes issued under tenant "tb".  For
the ShipmentRoute model — tenant-scoped per the spec — the middleware's
model test compares `params.model.toLowerCase()` ("shipmentroute")
against the camelCase list entry "shipmentRoute", which can never match,
so no tenant filter is injected: the record created under "ta" is
returned by a findMany issued under "tb", and a delete issued under "tb"
removes it. -/
theorem c1_isolation_code_bug :
    runCreate (some "ta") [] "Supplier" ⟨none, [("code", "SA")]⟩ "s1" =
      Except.ok ([("Supplier", ⟨"s1", "ta", [("code", "SA")]⟩)],
                 ⟨"s1", "ta", [("code", "SA")]⟩) ∧
    runFindMany (some "tb") [("Supplier", ⟨"s1", "ta", [("code", "SA")]⟩)]
      "Supplier" none = Except.ok [] ∧
    runFindUnique (some "tb") [("Supplier", ⟨"s1", "ta", [("code", "SA")]⟩)]
      "Supplier" (some ⟨none, some "s1", []⟩) = Except.ok none ∧
    runCount (some "tb") [("Supplier", ⟨"s1", "ta", [("code", "SA")]⟩)]
      "Supplier" none = Except.ok 0 ∧
    runAggregate (some "tb") [("Supplier", ⟨"s1", "ta", [("code", "SA")]⟩)]
      "Supplier" none = Except.ok [] ∧
    runUpdateMany (some "tb") [("Supplier", ⟨"s1", "ta", [("code", "SA")]⟩)]
      "Supplier" (some ⟨none, some "s1", []⟩) [("code", "X")] =
      Except.ok ([("Supplier", ⟨"s1", "ta", [("code", "SA")]⟩)], 0) ∧
    runDeleteMany (some "tb") [("Supplier", ⟨"s1", "ta", [("code", "SA")]⟩)]
      "Supplier" none =
      Except.ok [("Supplier", ⟨"s1", "ta", [("code", "SA")]⟩)] ∧
    runCreate (some "ta") [] "ShipmentRoute"
      ⟨some "ta", [("originLocationId", "l1"), ("destinationLocationId", "l2")]⟩ "r1" =
      Except.ok
        ([("ShipmentRoute",
           ⟨"r1", "ta", [("originLocationId", "l1"), ("destinationLocationId", "l2")]⟩)],
         ⟨"r1", "ta", [("originLocationId", "l1"), ("destinationLocationId", "l2")]⟩) ∧
    runFindMany (some "tb")
      [("ShipmentRoute",
        ⟨"r1", "ta", [("originLocationId", "l1"), ("destinationLocationId", "l2")]⟩)]
      "ShipmentRoute" none =
      Except.ok
        [⟨"r1", "ta", [("originLocationId", "l1"), ("destinationLocationId", "l2")]⟩] ∧
    runDeleteMany (some "tb")
      [("ShipmentRoute",
        ⟨"r1", "ta", [("originLocationId", "l1"), ("destinationLocationId", "l2")]⟩)]
      "ShipmentRoute" (some ⟨none, some "r1", []⟩) = Except.ok [] := by
  refine ⟨by decide, by decide, by decide, by decide, by decide, by decide, by decide,
    by decide, by decide, by decide⟩

/-- C3.  Auto-stamping fails on part of the tenant-scoped set.  On the
Supplier model the middleware overrides any caller-supplied tenant value
in create and createMany payloads with the active tenant.  On the
RiskEvent model — tenant-scoped per the spec but never matched by the
middleware's lowercased-name test — the payload is forwarded untouched,
so a caller-supplied tenant value "evil" survives and the stored record
belongs to "evil", not to the active tenant "ta". -/
theorem c3_autostamp_code_bug :
    tenantIsolationMiddleware (some "ta")
      ⟨some "Supplier", .create, ⟨none, .one ⟨some "evil", [("code", "SA")]⟩⟩⟩ =
      Except.ok
        ⟨some "Supplier", .create, ⟨none, .one ⟨some "ta", [("code", "SA")]⟩⟩⟩ ∧
    tenantIsolationMiddleware (some "ta")
      ⟨some "Supplier", .createMany,
        ⟨none, .many [⟨none, [("code", "A")]⟩, ⟨some "evil", [("code", "B")]⟩]⟩⟩ =
      Except.ok
        ⟨some "Supplier", .createMany,
          ⟨none, .many [⟨some "ta", [("code", "A")]⟩, ⟨some "ta", [("code", "B")]⟩]⟩⟩ ∧
    tenantIsolationMiddleware (some "ta")
      ⟨some "RiskEvent", .create, ⟨none, .one ⟨some "evil", [("title", "X")]⟩⟩⟩ =
      Except.ok
        ⟨some "RiskEvent", .create, ⟨none, .one ⟨some "evil", [("title", "X")]⟩⟩⟩ ∧
    runCreate (some "ta") [] "RiskEvent" ⟨some "evil", [("title", "X")]⟩ "e1" =
      Except.ok ([("RiskEvent", ⟨"e1", "evil", [("title", "X")]⟩)],
                 ⟨"e1", "evil", [("title", "X")]⟩) ∧
    ("evil" : String) ≠ "ta" := by
  refine ⟨by decide, by decide, by decide, by decide, by decide⟩

/-- C4.  Cross-tenant update is blocked for part of the tenant-scoped
set only.  On the Location model, an update issued under "tb" against a
record owned by "ta" matches zero rows, is reported as not-found, and
leaves the record readable under "ta" with its original fields.  On the
ShipmentRoute model — never matched by the middleware's model test — the
same cross-tenant update silently succeeds and rewrites the "ta"-owned
row. -/
theorem c4_cross_tenant_update_code_bug :
    runUpdate (some "tb") [("Location", ⟨"l1", "ta", [("name", "Original")]⟩)]
      "Location" (some ⟨none, some "l1", []⟩) [("name", "Hacked")] =
      Except.error .notFound ∧
    runUpdateMany (some "tb") [("Location", ⟨"l1", "ta", [("name", "Original")]⟩)]
      "Location" (some ⟨none, some "l1", []⟩) [("name", "Hacked")] =
      Except.ok ([("Location", ⟨"l1", "ta", [("name", "Original")]⟩)], 0) ∧
    runFindUnique (some "ta") [("Location", ⟨"l1", "ta", [("name", "Original")]⟩)]
      "Location" (some ⟨none, some "l1", []⟩) =
      Except.ok (some ⟨"l1", "ta", [("name", "Original")]⟩) ∧
    runUpdate (some "tb") [("ShipmentRoute", ⟨"r1", "ta", [("transitTimeDays", "5")]⟩)]
      "ShipmentRoute" (some ⟨none, some "r1", []⟩) [("transitTimeDays", "99")] =
      Except.ok ([("ShipmentRoute", ⟨"r1", "ta", [("transitTimeDays", "99")]⟩)],
                 ⟨"r1", "ta", [("transitTimeDays", "99")]⟩) := by
  refine ⟨by decide, by decide, by decide, by decide⟩

/-- C10.  Filter tenant override holds for part of the tenant-scoped set
only.  On the Supplier model the forwarded where clause carries the
active tenant whatever tenantId the caller supplied, and two calls
differing only in the caller-supplied where.tenantId are forwarded
identically; the same holds for update.  On the ShipmentRoute model —
never matched by the middleware's model test — the caller-supplied
where.tenantId "tb" survives into the forwarded filter, so a caller can
redirect the tenant scope of the query. -/
theorem c10_filter_override_code_bug :
    tenantIsolationMiddleware (some "ta")
      ⟨some "Supplier", .findMany,
        ⟨some ⟨some "tb", some "s1", [("code", "SA")]⟩, .noData⟩⟩ =
      Except.ok
        ⟨some "Supplier", .findMany,
          ⟨some ⟨some "ta", some "s1", [("code", "SA")]⟩, .noData⟩⟩ ∧
    tenantIsolationMiddleware (some "ta")
      ⟨some "Supplier", .findMany,
        ⟨some ⟨none, some "s1", [("code", "SA")]⟩, .noData⟩⟩ =
      Except.ok
        ⟨some "Supplier", .findMany,
          ⟨some ⟨some "ta", some "s1", [("code", "SA")]⟩, .noData⟩⟩ ∧
    tenantIsolationMiddleware (some "ta")
      ⟨some "Supplier", .update, ⟨some ⟨some "tb", some "s1", []⟩, .noData⟩⟩ =
      Except.ok
        ⟨some "Supplier", .update, ⟨some ⟨some "ta", some "s1", []⟩, .noData⟩⟩ ∧
    tenantIsolationMiddleware (some "ta")
      ⟨some "ShipmentRoute", .findMany, ⟨some ⟨some "tb", none, []⟩, .noData⟩⟩ =
      Except.ok
        ⟨some "ShipmentRoute", .findMany, ⟨some ⟨some "tb", none, []⟩, .noData⟩⟩ := by
  refine ⟨by decide, by decide, by decide, by decide⟩

/-- C6.  Uniqueness: with no conflicting row present, the first create
succeeds and a second create with the same business key fails with a
constraint violation — for Supplier.code, Product.sku and User.email the
duplicate check carries no tenant condition (the unique indexes of
migration.sql lines 193, 205, 277 have no tenant column), so the two
rows' tenants are left arbitrary and may differ; for ShipmentRoute the
key is (tenant, origin, destination, mode) and for Inventory it is
(tenant, product, location). -/
theorem c6_uniqueness :
    (∀ (s : Schema) (r1 r2 : SupplierRow),
       s.suppliers.any (fun x => x.code == r1.code) = false →
       r2.code = r1.code →
       insertSupplier s r1 =
         Except.ok { s with suppliers := s.suppliers ++ [r1] } ∧
       insertSupplier { s with suppliers := s.suppliers ++ [r1] } r2 =
         Except.error (.constraintViolation "suppliers_code_key")) ∧
    (∀ (s : Schema) (r1 r2 : ProductRow),
       s.products.any (fun x => x.sku == r1.sku) = false →
       s.suppliers.any (fun x => x.id == r1.supplierId) = true →
       r2.sku = r1.sku →
       insertProduct s r1 =
         Except.ok { s with products := s.products ++ [r1] } ∧
       insertProduct { s with products := s.products ++ [r1] } r2 =
         Except.error (.constraintViolation "products_sku_key")) ∧
    (∀ (s : Schema) (r1 r2 : UserRow),
       s.users.any (fun x => x.email == r1.email) = false →
       r2.email = r1.email →
       insertUser s r1 = Except.ok { s with users := s.users ++ [r1] } ∧
       insertUser { s with users := s.users ++ [r1] } r2 =
         Except.error (.constraintViolation "users_email_key")) ∧
    (∀ (s : Schema) (r1 r2 : RouteRow),
       s.routes.any (fun x =>
         x.tenantId == r1.tenantId && x.originLocationId == r1.originLocationId &&
         x.destinationLocationId == r1.destinationLocationId &&
         x.transportMode == r1.transportMode) = false →
       s.locations.any (fun x => x.id == r1.originLocationId) = true →
       s.locations.any (fun x => x.id == r1.destinationLocationId) = true →
       r2.tenantId = r1.tenantId → r2.originLocationId = r1.originLocationId →
       r2.destinationLocationId = r1.destinationLocationId →
       r2.transportMode = r1.transportMode →
       insertRoute s r1 = Except.ok { s with routes := s.routes ++ [r1] } ∧
       insertRoute { s with routes := s.routes ++ [r1] } r2 =
         Except.error (.constraintViolation
           "shipment_routes_tenant_id_origin_location_id_destination_lo_key")) ∧
    (∀ (s : Schema) (r1 r2 : InventoryRow),
       s.inventory.any (fun x =>
         x.tenantId == r1.tenantId && x.productId == r1.productId &&
         x.locationId == r1.locationId) = false →
       s.products.any (fun x => x.id == r1.productId) = true →
       s.locations.any (fun x => x.id == r1.locationId) = true →
       r2.tenantId = r1.tenantId → r2.productId = r1.productId →
       r2.locationId = r1.locationId →
       insertInventory s r1 =
         Except.ok { s with inventory := s.inventory ++ [r1] } ∧
       insertInventory { s with inventory := s.inventory ++ [r1] } r2 =
         Except.error (.constraintViolation
           "inventory_tenant_id_product_id_location_id_key")) := by
  refine ⟨?_, ?_, ?_, ?_, ?_⟩
  · intro s r1 r2 h1 hkey
    constructor
    · simp [insertSupplier, h1]
    · simp [insertSupplier, List.any_append, hkey]
  · intro s r1 r2 h1 hfk hkey
    constructor
    · simp [insertProduct, h1, hfk]
    · simp [insertProduct, List.any_append, hkey]
  · intro s r1 r2 h1 hkey
    constructor
    · simp [insertUser, h1]
    · simp [insertUser, List.any_append, hkey]
  · intro s r1 r2 h1 ho hd hkt hko hkd hkm
    constructor
    · simp [insertRoute, h1, ho, hd]
    · simp [insertRoute, List.any_append, hkt, hko, hkd, hkm]
  · intro s r1 r2 h1 hfp hfl hkt hkp hkl
    constructor
    · simp [insertInventory, h1, hfp, hfl]
    · simp [insertInventory, List.any_append, hkt, hkp, hkl]

/-- C6 witness: concrete duplicate pairs for each constraint — the
Supplier, User and Product pairs run under different tenants ("ta" then
"tb") and the duplicate is still rejected, exhibiting the global scope
of those three indexes. -/
theorem c6_uniqueness_witness :
    (insertSupplier Schema.empty ⟨"s1", "ta", "SUP-1"⟩ =
       Except.ok { Schema.empty with
         suppliers := Schema.empty.suppliers ++ [⟨"s1", "ta", "SUP-1"⟩] } ∧
     insertSupplier { Schema.empty with
         suppliers := Schema.empty.suppliers ++ [⟨"s1", "ta", "SUP-1"⟩] }
       ⟨"s2", "tb", "SUP-1"⟩ =
       Except.error (.constraintViolation "suppliers_code_key")) ∧
    (insertProduct { Schema.empty with suppliers := [⟨"s1", "ta", "SUP-1"⟩] }
       ⟨"p1", "ta", "SKU-1", "s1"⟩ =
       Except.ok { { Schema.empty with suppliers := [⟨"s1", "ta", "SUP-1"⟩] } with
         products := { Schema.empty with
           suppliers := [⟨"s1", "ta", "SUP-1"⟩] }.products ++
             [⟨"p1", "ta", "SKU-1", "s1"⟩] } ∧
     insertProduct { { Schema.empty with suppliers := [⟨"s1", "ta", "SUP-1"⟩] } with
         products := { Schema.empty with
           suppliers := [⟨"s1", "ta", "SUP-1"⟩] }.products ++
             [⟨"p1", "ta", "SKU-1", "s1"⟩] }
       ⟨"p2", "tb", "SKU-1", "s1"⟩ =
       Except.error (.constraintViolation "products_sku_key")) ∧
    (insertUser Schema.empty ⟨"u1", "ta", "a@ex.com"⟩ =
       Except.ok { Schema.empty with
         users := Schema.empty.users ++ [⟨"u1", "ta", "a@ex.com"⟩] } ∧
     insertUser { Schema.empty with
         users := Schema.empty.users ++ [⟨"u1", "ta", "a@ex.com"⟩] }
       ⟨"u2", "tb", "a@ex.com"⟩ =
       Except.error (.constraintViolation "users_email_key")) ∧
    (insertRoute { Schema.empty with
         locations := [⟨"l1", "ta", "L1"⟩, ⟨"l2", "ta", "L2"⟩] }
       ⟨"r1", "ta", "l1", "l2", "TRUCK"⟩ =
       Except.ok { { Schema.empty with
           locations := [⟨"l1", "ta", "L1"⟩, ⟨"l2", "ta", "L2"⟩] } with
         routes := { Schema.empty with
           locations := [⟨"l1", "ta", "L1"⟩, ⟨"l2", "ta", "L2"⟩] }.routes ++
             [⟨"r1", "ta", "l1", "l2", "TRUCK"⟩] } ∧
     insertRoute { { Schema.empty with
           locations := [⟨"l1", "ta", "L1"⟩, ⟨"l2", "ta", "L2"⟩] } with
         routes := { Schema.empty with
           locations := [⟨"l1", "ta", "L1"⟩, ⟨"l2", "ta", "L2"⟩] }.routes ++
             [⟨"r1", "ta", "l1", "l2", "TRUCK"⟩] }
       ⟨"r2", "ta", "l1", "l2", "TRUCK"⟩ =
       Except.error (.constraintViolation
         "shipment_routes_tenant_id_origin_location_id_destination_lo_key")) ∧
    (insertInventory { Schema.empty with
         products := [⟨"p1", "ta", "SKU-1", "s1"⟩],
         locations := [⟨"l1", "ta", "L1"⟩] }
       ⟨"i1", "ta", "p1", "l1"⟩ =
       Except.ok { { Schema.empty with
           products := [⟨"p1", "ta", "SKU-1", "s1"⟩],
           locations := [⟨"l1", "ta", "L1"⟩] } with
         inventory := { Schema.empty with
           products := [⟨"p1", "ta", "SKU-1", "s1"⟩],
           locations := [⟨"l1", "ta", "L1"⟩] }.inventory ++
             [⟨"i1", "ta", "p1", "l1"⟩] } ∧
     insertInventory { { Schema.empty with
           products := [⟨"p1", "ta", "SKU-1", "s1"⟩],
           locations := [⟨"l1", "ta", "L1"⟩] } with
         inventory := { Schema.empty with
           products := [⟨"p1", "ta", "SKU-1", "s1"⟩],
           locations := [⟨"l1", "ta", "L1"⟩] }.inventory ++
             [⟨"i1", "ta", "p1", "l1"⟩] }
       ⟨"i2", "ta", "p1", "l1"⟩ =
       Except.error (.constraintViolation
         "inventory_tenant_id_product_id_location_id_key")) :=
  ⟨c6_uniqueness.1 Schema.empty ⟨"s1", "ta", "SUP-1"⟩ ⟨"s2", "tb", "SUP-1"⟩
     (by decide) rfl,
   c6_uniqueness.2.1 { Schema.empty with suppliers := [⟨"s1", "ta", "SUP-1"⟩] }
     ⟨"p1", "ta", "SKU-1", "s1"⟩ ⟨"p2", "tb", "SKU-1", "s1"⟩
     (by decide) (by decide) rfl,
   c6_uniqueness.2.2.1 Schema.empty ⟨"u1", "ta", "a@ex.com"⟩ ⟨"u2", "tb", "a@ex.com"⟩
     (by decide) rfl,
   c6_uniqueness.2.2.2.1
     { Schema.empty with locations := [⟨"l1", "ta", "L1"⟩, ⟨"l2", "ta", "L2"⟩] }
     ⟨"r1", "ta", "l1", "l2", "TRUCK"⟩ ⟨"r2", "ta", "l1", "l2", "TRUCK"⟩
     (by decide) (by decide) (by decide) rfl rfl rfl rfl,
   c6_uniqueness.2.2.2.2
     { Schema.empty with
       products := [⟨"p1", "ta", "SKU-1", "s1"⟩],
       locations := [⟨"l1", "ta", "L1"⟩] }
     ⟨"i1", "ta", "p1", "l1"⟩ ⟨"i2", "ta", "p1", "l1"⟩
     (by decide) (by decide) (by decide) rfl rfl rfl⟩

/-- C7.  Cascade/restrict: deleting a Product removes every Inventory row
and every RiskEvent-product junction row referencing it and no other
rows of those tables; deleting a RiskEvent removes every junction row of
all four kinds referencing it and no others; deleting a Supplier still
referenced by a Product fails with the foreign-key constraint violation
and leaves the database unchanged. -/
theorem c7_cascade_restrict :
    (∀ (s : Schema) (pid : String),
       (∀ i ∈ (deleteProduct s pid).inventory, i.productId ≠ pid) ∧
       (∀ i ∈ s.inventory, i.productId ≠ pid → i ∈ (deleteProduct s pid).inventory) ∧
       (∀ j ∈ (deleteProduct s pid).riskEventProducts, j.otherId ≠ pid) ∧
       (∀ p ∈ (deleteProduct s pid).products, p.id ≠ pid)) ∧
    (∀ (s : Schema) (eid : String),
       (∀ j ∈ (deleteRiskEvent s eid).riskEventSuppliers, j.riskEventId ≠ eid) ∧
       (∀ j ∈ (deleteRiskEvent s eid).riskEventProducts, j.riskEventId ≠ eid) ∧
       (∀ j ∈ (deleteRiskEvent s eid).riskEventLocations, j.riskEventId ≠ eid) ∧
       (∀ j ∈ (deleteRiskEvent s eid).riskEventRoutes, j.riskEventId ≠ eid) ∧
       (∀ j ∈ s.riskEventSuppliers, j.riskEventId ≠ eid →
          j ∈ (deleteRiskEvent s eid).riskEventSuppliers)) ∧
    (∀ (s : Schema) (sid : String),
       s.products.any (fun p => p.supplierId == sid) = true →
       deleteSupplier s sid =
         Except.error (.constraintViolation "products_supplier_id_fkey") ∧
       applyDeleteSupplier s sid = s) := by
  refine ⟨?_, ?_, ?_⟩
  · intro s pid
    refine ⟨?_, ?_, ?_, ?_⟩ <;>
      · intro x hx
        simp only [deleteProduct, List.mem_filter, bne_iff_ne] at *
        tauto
  · intro s eid
    refine ⟨?_, ?_, ?_, ?_, ?_⟩ <;>
      · intro x hx
        simp only [deleteRiskEvent, List.mem_filter, bne_iff_ne] at *
        tauto
  · intro s sid h
    exact ⟨by simp [deleteSupplier, h], by simp [applyDeleteSupplier, deleteSupplier, h]⟩

/-- C7 witness: in a concrete database, the non-referencing inventory row
survives a product delete, a junction row of another risk event survives
a risk-event delete, and deleting the referenced Supplier "s1" fails and
changes nothing. -/
theorem c7_cascade_restrict_witness :
    (⟨"i2", "ta", "p2", "l1"⟩ : InventoryRow) ∈
      (deleteProduct { Schema.empty with
        suppliers := [⟨"s1", "ta", "SUP-1"⟩],
        products := [⟨"p1", "ta", "K1", "s1"⟩, ⟨"p2", "ta", "K2", "s1"⟩],
        inventory := [⟨"i1", "ta", "p1", "l1"⟩, ⟨"i2", "ta", "p2", "l1"⟩],
        riskEvents := [⟨"e1", "ta"⟩],
        riskEventSuppliers := [⟨"j1", "ta", "e1", "s1"⟩, ⟨"j2", "ta", "e2", "s1"⟩],
        riskEventProducts := [⟨"j3", "ta", "e1", "p1"⟩] } "p1").inventory ∧
    (⟨"j2", "ta", "e2", "s1"⟩ : JunctionRow) ∈
      (deleteRiskEvent { Schema.empty with
        suppliers := [⟨"s1", "ta", "SUP-1"⟩],
        products := [⟨"p1", "ta", "K1", "s1"⟩, ⟨"p2", "ta", "K2", "s1"⟩],
        inventory := [⟨"i1", "ta", "p1", "l1"⟩, ⟨"i2", "ta", "p2", "l1"⟩],
        riskEvents := [⟨"e1", "ta"⟩],
        riskEventSuppliers := [⟨"j1", "ta", "e1", "s1"⟩, ⟨"j2", "ta", "e2", "s1"⟩],
        riskEventProducts := [⟨"j3", "ta", "e1", "p1"⟩] } "e1").riskEventSuppliers ∧
    deleteSupplier { Schema.empty with
        suppliers := [⟨"s1", "ta", "SUP-1"⟩],
        products := [⟨"p1", "ta", "K1", "s1"⟩, ⟨"p2", "ta", "K2", "s1"⟩],
        inventory := [⟨"i1", "ta", "p1", "l1"⟩, ⟨"i2", "ta", "p2", "l1"⟩],
        riskEvents := [⟨"e1", "ta"⟩],
        riskEventSuppliers := [⟨"j1", "ta", "e1", "s1"⟩, ⟨"j2", "ta", "e2", "s1"⟩],
        riskEventProducts := [⟨"j3", "ta", "e1", "p1"⟩] } "s1" =
      Except.error (.constraintViolation "products_supplier_id_fkey") ∧
    applyDeleteSupplier { Schema.empty with
        suppliers := [⟨"s1", "ta", "SUP-1"⟩],
        products := [⟨"p1", "ta", "K1", "s1"⟩, ⟨"p2", "ta", "K2", "s1"⟩],
        inventory := [⟨"i1", "ta", "p1", "l1"⟩, ⟨"i2", "ta", "p2", "l1"⟩],
        riskEvents := [⟨"e1", "ta"⟩],
        riskEventSuppliers := [⟨"j1", "ta", "e1", "s1"⟩, ⟨"j2", "ta", "e2", "s1"⟩],
        riskEventProducts := [⟨"j3", "ta", "e1", "p1"⟩] } "s1" =
      { Schema.empty with
        suppliers := [⟨"s1", "ta", "SUP-1"⟩],
        products := [⟨"p1", "ta", "K1", "s1"⟩, ⟨"p2", "ta", "K2", "s1"⟩],
        inventory := [⟨"i1", "ta", "p1", "l1"⟩, ⟨"i2", "ta", "p2", "l1"⟩],
        riskEvents := [⟨"e1", "ta"⟩],
        riskEventSuppliers := [⟨"j1", "ta", "e1", "s1"⟩, ⟨"j2", "ta", "e2", "s1"⟩],
        riskEventProducts := [⟨"j3", "ta", "e1", "p1"⟩] } :=
  ⟨(c7_cascade_restrict.1 _ "p1").2.1 ⟨"i2", "ta", "p2", "l1"⟩ (by decide) (by decide),
   (c7_cascade_restrict.2.1 _ "e1").2.2.2.2 ⟨"j2", "ta", "e2", "s1"⟩
     (by decide) (by decide),
   (c7_cascade_restrict.2.2 _ "s1" (by decide)).1,
   (c7_cascade_restrict.2.2 _ "s1" (by decide)).2⟩

end SupplyChain
